import Mathlib

/-!
Verification development for the preview-environment identifier resolver of
`scripts/preview-tool.py` (class `PreviewEnvironment`, method `resolve` and its
six strategy methods).  The Python code is shallowly embedded: every external
process invocation (git, the GitHub CLI `gh`, kubectl, argocd) is modelled as a
field of a `World` record of oracles, and each `_resolve_*` classmethod becomes
a Lean function from a `World` and an identifier string to
`Except ResolveError PreviewEnvironment`.
-/

/-! ### Character-list string helpers

All string computation is done on `List Char` (`String.toList`) so that every
definition reduces by `decide`/`rfl` on concrete inputs. -/

/-- Numeric value of a decimal digit string (the characters must be ASCII
decimal digits), folding left as positional decimal: models Python
`int(s)` on a string of ASCII decimal digits. -/
def digitsVal (l : List Char) : Nat :=
  l.foldl (fun n c => 10 * n + (c.toNat - 48)) 0

/-- `s.toList`, with a single trailing newline removed when present.  Python's
`re` anchor `$` matches either at the end of the string or just before a
newline that ends the string, so an anchored pattern `^...$` effectively
matches against this core. -/
def dollarCore (s : String) : List Char :=
  match s.toList.getLast? with
  | some c => if c = '\n' then s.toList.dropLast else s.toList
  | none => s.toList

/-- Python `re.match(r"^<pre>(.+)$", s)`: the captured group, when the match
succeeds.  `.` does not match a newline, so after stripping the `$`-tolerated
trailing newline the remainder must be nonempty and newline-free. -/
def reMatchDotPlus (pre : String) (s : String) : Option String :=
  let core := dollarCore s
  if pre.toList.isPrefixOf core then
    let rest := core.drop pre.toList.length
    if rest.isEmpty || rest.contains '\n' then none else some (String.mk rest)
  else none

/-- Whether a character belongs to Python's regex class `\d`.  Python's `\d`
is the Unicode Decimal_Number category; this embedding models its ASCII
fragment `0-9`, the only part the program's inputs exercise. -/
def reDigit (c : Char) : Bool := c.isDigit

/-- Python `re.match(r"^<pre>(\d+)$", s)`: the captured digit group, when the
match succeeds. -/
def reMatchDigits (pre : String) (s : String) : Option String :=
  let core := dollarCore s
  if pre.toList.isPrefixOf core then
    let rest := core.drop pre.toList.length
    if rest.isEmpty || !rest.all reDigit then none else some (String.mk rest)
  else none

/-- Whether a character counts as a digit for Python's `str.isdigit`.  That
method accepts every character with Unicode property `Numeric_Type=Digit` or
`Numeric_Type=Decimal`; the model covers the ASCII decimal digits plus the
three Latin-1 superscript digits U+00B9, U+00B2, U+00B3, which are
`Numeric_Type=Digit` without being decimal digits (so Python's `int()`
rejects them). -/
def pyIsdigitChar (c : Char) : Bool :=
  c.isDigit || c = '¹' || c = '²' || c = '³'

/-- Python `s.isdigit()`: nonempty and every character in the isdigit class. -/
def pyIsdigit (s : String) : Bool :=
  !s.toList.isEmpty && s.toList.all pyIsdigitChar

/-- Python `int(s)` for a string that passed `s.isdigit()`: succeeds exactly
when every character is a true decimal digit, and raises `ValueError`
(modelled as `none`) on `Numeric_Type=Digit` characters such as `'²'`. -/
def pyIntOfIsdigit (s : String) : Option Nat :=
  if !s.toList.isEmpty && s.toList.all Char.isDigit then
    some (digitsVal s.toList)
  else none

/-- Python truthiness of an `Optional[str]`: `None` and the empty string are
falsy, everything else truthy. -/
def pyStrTruthy : Option String → Bool
  | none => false
  | some s => !s.toList.isEmpty

/-- Left-to-right, non-overlapping removal of every occurrence of the pattern
`"preview-"`: models Python `s.replace("preview-", "")` as used on tag
names. -/
def dropPreviewOcc : List Char → List Char
  | 'p' :: 'r' :: 'e' :: 'v' :: 'i' :: 'e' :: 'w' :: '-' :: t => dropPreviewOcc t
  | c :: t => c :: dropPreviewOcc t
  | [] => []

/-- Python `tag.replace("preview-", "")` on strings. -/
def replacePreview (s : String) : String :=
  String.mk (dropPreviewOcc s.toList)

/-- Lower-casing used when scanning namespace annotation keys; Python
`str.lower` restricted to the ASCII range, which annotation keys use. -/
def pyLower (s : String) : String :=
  String.mk (s.toList.map Char.toLower)

/-- Substring test (Python `a in b` on strings). -/
def strContains (needle hay : String) : Bool :=
  decide (needle.toList <:+: hay.toList)

/-! ### Data model (from `preview-tool.py`) -/

/-- `IdentifierType` enumeration from the source: the six identifier kinds a
preview environment can be resolved from. -/
inductive IdentifierType where
  | GIT_TAG
  | ARGOCD_APP
  | GKE_NAMESPACE
  | INFRA_BRANCH
  | PR
  | GIT_BRANCH
deriving DecidableEq, Repr

/-- `PRInfo` dataclass: information about a GitHub pull request as returned by
`get_pr_info`. -/
structure PRInfo where
  number : Int
  title : String
  state : String
  head_ref : String
  base_ref : String
  url : String
  author : String
  created_at : String
  merged_at : Option String := none
  closed_at : Option String := none
deriving DecidableEq, Repr

/-- An entry of the ArgoCD application list (`argocd app list -o json`): the
two fields `get_argocd_app_for_namespace` reads, each possibly absent in the
JSON. -/
structure ArgoCDApp where
  destNamespace : Option String
  name : Option String
deriving DecidableEq, Repr

/-- The external world the resolver consults, one oracle per helper function
of the source that shells out to git / gh / kubectl / argocd:

* `ghAvailable`        — `check_command_available("gh")`;
* `infraPR n`          — `get_pr_info("dem2-infra", n)`;
* `dem2PR n`           — `get_pr_info("dem2", n)`;
* `dem2PRByBranch b`   — `get_pr_by_branch("dem2", b)`;
* `previewBranches`    — `get_remote_preview_branches(INFRA_REPO)`;
* `previewTagsSorted`  — `get_preview_tags_sorted(DEM2_REPO)`, newest first;
* `tagInDem2 t`        — `git -C DEM2_REPO rev-parse t` succeeding;
* `isAncestorDem2 t r` — `check_tag_is_ancestor(DEM2_REPO, t, r)`;
* `refVerifyDem2 r`    — `git -C DEM2_REPO rev-parse --verify r` succeeding;
* `nsAnnotationMap ns` — `get_namespace_annotations(ns)` (a dict, modelled as
  its key/value pairs in iteration order);
* `argoAppList`        — `list_argocd_apps()`. -/
structure World where
  ghAvailable : Bool
  infraPR : Nat → Option PRInfo
  dem2PR : Nat → Option PRInfo
  dem2PRByBranch : String → Option Int
  previewBranches : List String
  previewTagsSorted : List String
  tagInDem2 : String → Bool
  isAncestorDem2 : String → String → Bool
  refVerifyDem2 : String → Bool
  nsAnnotationMap : String → Option (List (String × String))
  argoAppList : Option (List ArgoCDApp)

/-- The resolver's output (`PreviewEnvironment.__init__`): canonical preview
ID, identifier kind, and the original identifier string. -/
structure PreviewEnvironment where
  preview_id : String
  id_type : IdentifierType
  original_identifier : String
deriving DecidableEq, Repr

/-- The exceptions a resolution call can surface.  `resolutionError` is the
source's `ResolutionError`; `commandNotFound` is the source's
`CommandNotFoundError` (the spec's `DependencyMissingError`); `valueError`
models an uncaught Python `ValueError` escaping from `int(...)`. -/
inductive ResolveError where
  | resolutionError (msg : String)
  | commandNotFound (msg : String)
  | valueError (msg : String)
deriving DecidableEq, Repr

deriving instance DecidableEq for Except

/-- Result kind test: resolution failed with the source's `ResolutionError`. -/
def isResolutionError : Except ResolveError PreviewEnvironment → Bool
  | .error (.resolutionError _) => true
  | _ => false

/-- Result kind test: resolution failed with the source's
`CommandNotFoundError` (the spec's `DependencyMissingError`). -/
def isCommandNotFound : Except ResolveError PreviewEnvironment → Bool
  | .error (.commandNotFound _) => true
  | _ => false

/-! ### Kubernetes / ArgoCD lookup helpers (from the source) -/

/-- One step of the annotation scan of `get_argocd_app_from_namespace`: the
key matches when its lower-cased form contains both `"argocd"` and `"app"`,
or when it is exactly `"app.kubernetes.io/instance"`. -/
def annotationKeyMatches (k : String) : Bool :=
  (strContains "argocd" (pyLower k) && strContains "app" (pyLower k)) ||
    k = "app.kubernetes.io/instance"

/-- `get_argocd_app_from_namespace(namespace)`: read the namespace's
annotations (`None` and the empty dict are both falsy) and return the value of
the first matching key, scanning in iteration order. -/
def get_argocd_app_from_namespace (w : World) (namespace_ : String) :
    Option String :=
  match w.nsAnnotationMap namespace_ with
  | none => none
  | some kvs =>
    if kvs.isEmpty then none
    else (kvs.find? fun kv => annotationKeyMatches kv.1).map Prod.snd

/-- `get_argocd_app_for_namespace(namespace)`: list the ArgoCD applications
(`None` and the empty list are both falsy) and return the `metadata.name` of
the first one whose `spec.destination.namespace` equals the namespace — that
name itself may be absent (`None`). -/
def get_argocd_app_for_namespace (w : World) (namespace_ : String) :
    Option String :=
  match w.argoAppList with
  | none => none
  | some apps =>
    if apps.isEmpty then none
    else
      match apps.find? fun a => a.destNamespace = some namespace_ with
      | some a => a.name
      | none => none

/-! ### The two-tier ancestor search (from `_resolve_pr` / `_resolve_git_branch`) -/

/-- Loop body of `_resolve_pr`'s first tier: an infra preview branch qualifies
when the tag `preview-<branch>` exists in the dem2 repo and is an ancestor of
`origin/<dem2_branch>`. -/
def prTierBranchPred (w : World) (dem2_branch : String) (infra_branch : String) :
    Bool :=
  w.tagInDem2 ("preview-" ++ infra_branch) &&
    w.isAncestorDem2 ("preview-" ++ infra_branch) ("origin/" ++ dem2_branch)

/-- Loop body of `_resolve_pr`'s tag fallback: a preview tag qualifies when it
is an ancestor of `origin/<dem2_branch>`. -/
def prTagPred (w : World) (dem2_branch : String) (tag : String) : Bool :=
  w.isAncestorDem2 tag ("origin/" ++ dem2_branch)

/-- Loop body of `_resolve_git_branch`'s first tier: additionally requires
`git rev-parse --verify origin/<identifier>` to succeed before the ancestor
check is attempted. -/
def gbTierBranchPred (w : World) (identifier : String) (infra_branch : String) :
    Bool :=
  w.tagInDem2 ("preview-" ++ infra_branch) &&
    (w.refVerifyDem2 ("origin/" ++ identifier) &&
      w.isAncestorDem2 ("preview-" ++ infra_branch) ("origin/" ++ identifier))

/-- Loop body of `_resolve_git_branch`'s tag fallback, with the same
per-iteration `rev-parse --verify` guard. -/
def gbTagPred (w : World) (identifier : String) (tag : String) : Bool :=
  w.refVerifyDem2 ("origin/" ++ identifier) &&
    w.isAncestorDem2 tag ("origin/" ++ identifier)

/-- The shared shape of both two-tier searches: `preview_id` is first set by
the branch-listing loop (first qualifying branch, in listing order); the tag
fallback loop runs only when that left `preview_id` falsy (Python `if not
preview_id`), and overwrites it with `tag.replace("preview-", "")` of the
first qualifying tag; when the fallback finds nothing, the first tier's value
(possibly falsy) stands. -/
def twoTier (firstTier : Option String) (tags : List String)
    (tagPred : String → Bool) : Option String :=
  if pyStrTruthy firstTier then firstTier
  else
    match tags.find? tagPred with
    | some t => some (replacePreview t)
    | none => firstTier

/-- The two-tier search of `_resolve_pr` (lines 624–644), starting from the
dem2 PR's head branch. -/
def prSearch (w : World) (dem2_branch : String) : Option String :=
  twoTier (w.previewBranches.find? (prTierBranchPred w dem2_branch))
    w.previewTagsSorted (prTagPred w dem2_branch)

/-- The two-tier search of `_resolve_git_branch` (lines 662–691), starting
from the given branch identifier. -/
def gbSearch (w : World) (identifier : String) : Option String :=
  twoTier (w.previewBranches.find? (gbTierBranchPred w identifier))
    w.previewTagsSorted (gbTagPred w identifier)

/-! ### The six resolution strategies -/

/-- `PreviewEnvironment._resolve_git_tag`. -/
def resolve_git_tag (identifier : String) :
    Except ResolveError PreviewEnvironment :=
  match reMatchDotPlus "preview-" identifier with
  | none => .error (.resolutionError "Git tag must start with 'preview-'")
  | some preview_id => .ok ⟨preview_id, .GIT_TAG, identifier⟩

/-- `PreviewEnvironment._resolve_argocd_app`. -/
def resolve_argocd_app (w : World) (identifier : String) :
    Except ResolveError PreviewEnvironment :=
  match reMatchDigits "preview-pr-" identifier with
  | none =>
    .error (.resolutionError "ArgoCD app must be in format 'preview-pr-NUMBER'")
  | some grp =>
    if !w.ghAvailable then
      .error (.commandNotFound "gh CLI required for ArgoCD app resolution")
    else
      let infra_pr_num := digitsVal grp.toList
      match w.infraPR infra_pr_num with
      | none =>
        .error (.resolutionError
          ("Could not resolve ArgoCD app '" ++ identifier ++ "' to preview ID"))
      | some pr_info =>
        match reMatchDotPlus "preview/" pr_info.head_ref with
        | none =>
          .error (.resolutionError
            ("Infra PR #" ++ toString infra_pr_num ++
              " branch is not a preview branch"))
        | some preview_id => .ok ⟨preview_id, .ARGOCD_APP, identifier⟩

/-- `PreviewEnvironment._resolve_gke_namespace`. -/
def resolve_gke_namespace (w : World) (identifier : String) :
    Except ResolveError PreviewEnvironment :=
  match reMatchDigits "tusdi-preview-" identifier with
  | some grp =>
    let infra_pr_num := digitsVal grp.toList
    let preview_id :=
      if !w.ghAvailable then toString infra_pr_num
      else
        match w.infraPR infra_pr_num with
        | some pr_info =>
          match reMatchDotPlus "preview/" pr_info.head_ref with
          | some p => p
          | none => toString infra_pr_num
        | none => toString infra_pr_num
    .ok ⟨preview_id, .GKE_NAMESPACE, identifier⟩
  | none =>
    let fromNs := get_argocd_app_from_namespace w identifier
    let argocd_app :=
      if pyStrTruthy fromNs then fromNs
      else get_argocd_app_for_namespace w identifier
    match argocd_app with
    | some appName =>
      if appName.toList.isEmpty then .ok ⟨identifier, .GKE_NAMESPACE, identifier⟩
      else
        match reMatchDigits "preview-pr-" appName with
        | some grp =>
          let infra_pr_num := digitsVal grp.toList
          if w.ghAvailable then
            match w.infraPR infra_pr_num with
            | some pr_info =>
              match reMatchDotPlus "preview/" pr_info.head_ref with
              | some p => .ok ⟨p, .GKE_NAMESPACE, identifier⟩
              | none => .ok ⟨toString infra_pr_num, .GKE_NAMESPACE, identifier⟩
            | none => .ok ⟨toString infra_pr_num, .GKE_NAMESPACE, identifier⟩
          else .ok ⟨toString infra_pr_num, .GKE_NAMESPACE, identifier⟩
        | none => .ok ⟨appName, .GKE_NAMESPACE, identifier⟩
    | none => .ok ⟨identifier, .GKE_NAMESPACE, identifier⟩

/-- `PreviewEnvironment._resolve_infra_branch`. -/
def resolve_infra_branch (identifier : String) :
    Except ResolveError PreviewEnvironment :=
  match reMatchDotPlus "preview/" identifier with
  | none => .error (.resolutionError "Infra branch must start with 'preview/'")
  | some preview_id => .ok ⟨preview_id, .INFRA_BRANCH, identifier⟩

/-- The first tier of `_resolve_pr` (lines 611–616): look PR `n` up in the
infrastructure repo and, when it exists, match its head branch against
`preview/<id>`; any other outcome falls through. -/
def infraPreviewHit (w : World) (n : Nat) : Option String :=
  match w.infraPR n with
  | some pr_info => reMatchDotPlus "preview/" pr_info.head_ref
  | none => none

/-- `PreviewEnvironment._resolve_pr`. -/
def resolve_pr (w : World) (identifier : String) :
    Except ResolveError PreviewEnvironment :=
  if !pyIsdigit identifier then
    .error (.resolutionError "PR number must be numeric")
  else if !w.ghAvailable then
    .error (.commandNotFound "gh CLI required for PR resolution")
  else
    match pyIntOfIsdigit identifier with
    | none =>
      .error (.valueError
        ("invalid literal for int() with base 10: '" ++ identifier ++ "'"))
    | some pr_num =>
      match infraPreviewHit w pr_num with
      | some preview_id => .ok ⟨preview_id, .PR, identifier⟩
      | none =>
        match w.dem2PR pr_num with
        | none =>
          .error (.resolutionError
            ("Could not find preview environment for PR #" ++
              toString pr_num))
        | some pr_info =>
          match prSearch w pr_info.head_ref with
          | some preview_id =>
            if preview_id.toList.isEmpty then
              .error (.resolutionError
                ("Could not find preview environment for PR #" ++
                  toString pr_num))
            else .ok ⟨preview_id, .PR, identifier⟩
          | none =>
            .error (.resolutionError
              ("Could not find preview environment for PR #" ++
                toString pr_num))

/-- `PreviewEnvironment._resolve_git_branch`. -/
def resolve_git_branch (w : World) (identifier : String) :
    Except ResolveError PreviewEnvironment :=
  if !w.ghAvailable then
    .error (.commandNotFound "gh CLI required for git branch resolution")
  else
    match w.dem2PRByBranch identifier with
    | none =>
      .error (.resolutionError
        ("Could not find PR for branch '" ++ identifier ++ "'"))
    | some pr_num =>
      if pr_num = 0 then
        .error (.resolutionError
          ("Could not find PR for branch '" ++ identifier ++ "'"))
      else
        match gbSearch w identifier with
        | some preview_id =>
          if preview_id.toList.isEmpty then
            .error (.resolutionError
              ("Could not find preview environment for branch '" ++
                identifier ++ "'"))
          else .ok ⟨preview_id, .GIT_BRANCH, identifier⟩
        | none =>
          .error (.resolutionError
            ("Could not find preview environment for branch '" ++
              identifier ++ "'"))

/-- `PreviewEnvironment.resolve`: dispatch over the six identifier kinds.
The Python `else` arm is unreachable over the closed enumeration. -/
def PreviewEnvironment.resolve (w : World) (id_type : IdentifierType)
    (identifier : String) : Except ResolveError PreviewEnvironment :=
  match id_type with
  | .GIT_TAG => resolve_git_tag identifier
  | .ARGOCD_APP => resolve_argocd_app w identifier
  | .GKE_NAMESPACE => resolve_gke_namespace w identifier
  | .INFRA_BRANCH => resolve_infra_branch identifier
  | .PR => resolve_pr w identifier
  | .GIT_BRANCH => resolve_git_branch w identifier

/-! ### Shared lemmas -/

/-- `List.find?` only depends on the pointwise behaviour of its predicate on
the list's elements. -/
theorem find_respects_pred {α : Type} {p q : α → Bool} :
    ∀ l : List α, (∀ x ∈ l, p x = q x) → l.find? p = l.find? q := by
  intro l
  induction l with
  | nil => intro _; rfl
  | cons a t ih =>
    intro h
    have ha : p a = q a := h a (List.mem_cons_self a t)
    have ht : t.find? p = t.find? q := ih fun x hx => h x (List.mem_cons_of_mem a hx)
    simp only [List.find?]
    rw [ha, ht]

/-- On a list sorted descending by `date`, the first element satisfying a
predicate has the maximal `date` among all satisfying elements. -/
theorem find_on_sorted_is_max {α : Type} (date : α → Nat) (p : α → Bool) :
    ∀ (l : List α) (t : α), l.Pairwise (fun a b => date b ≤ date a) →
      l.find? p = some t → p t = true ∧ ∀ x ∈ l, p x = true → date x ≤ date t := by
  intro l
  induction l with
  | nil => intro t _ hf; cases hf
  | cons a rest ih =>
    intro t hsort hf
    rcases List.pairwise_cons.mp hsort with ⟨hhead, htail⟩
    by_cases hpa : p a = true
    · rw [List.find?_cons_of_pos _ hpa] at hf
      obtain rfl : a = t := by injection hf
      refine ⟨hpa, ?_⟩
      intro x hx _
      rcases List.mem_cons.mp hx with rfl | hx'
      · exact le_refl _
      · exact hhead x hx'
    · have hpa' : ¬ p a := by simpa using hpa
      rw [List.find?_cons_of_neg _ hpa'] at hf
      obtain ⟨hpt, hmax⟩ := ih t htail hf
      refine ⟨hpt, ?_⟩
      intro x hx hpx
      rcases List.mem_cons.mp hx with rfl | hx'
      · exact absurd hpx hpa
      · exact hmax x hx' hpx

/-- A string accepted by the model of `int()` passed `str.isdigit` as well. -/
theorem pyIsdigit_of_pyIntOfIsdigit {s : String} {n : Nat}
    (h : pyIntOfIsdigit s = some n) : pyIsdigit s = true := by
  unfold pyIntOfIsdigit at h
  split at h
  · rename_i hcond
    simp only [Bool.and_eq_true, List.all_eq_true] at hcond
    unfold pyIsdigit
    simp only [Bool.and_eq_true, List.all_eq_true]
    refine ⟨hcond.1, ?_⟩
    intro c hc
    unfold pyIsdigitChar
    simp [hcond.2 c hc]
  · cases h

/-- `resolve_gke_namespace` returns `Except.ok` on every input: all of its
branches construct a `PreviewEnvironment`. -/
theorem gke_always_ok (w : World) (identifier : String) :
    ∃ r : PreviewEnvironment,
      resolve_gke_namespace w identifier = .ok r := by
  unfold resolve_gke_namespace
  dsimp only
  repeat' split
  all_goals exact ⟨_, rfl⟩

/-- When the branch-listing tier produced a truthy value, `twoTier` returns it
and never looks at the tag list. -/
theorem twoTier_of_truthy {firstTier : Option String} {tags : List String}
    {tagPred : String → Bool} (h : pyStrTruthy firstTier = true) :
    twoTier firstTier tags tagPred = firstTier := by
  unfold twoTier
  rw [h]
  rfl

/-- When the branch-listing tier produced nothing at all, `twoTier` is the
stripped first qualifying tag. -/
theorem twoTier_of_none {firstTier : Option String} {tags : List String}
    {tagPred : String → Bool} (h : firstTier = none) :
    twoTier firstTier tags tagPred = (tags.find? tagPred).map replacePreview := by
  subst h
  unfold twoTier
  simp only [pyStrTruthy, Bool.false_eq_true, if_false]
  cases hf : tags.find? tagPred <;> simp [hf]

/-! ### Concrete worlds used by witnesses and evaluation theorems -/

/-- A world where the GitHub CLI is available, infra PR #91 has head branch
`preview/checkout-flow`, infra PR #92 has head branch `preview/billing-v2`,
dem2 PR #421 has head branch `feature/x`, and the tag
`preview-checkout-flow` is an ancestor of `origin/feature/x`. -/
def wStd : World where
  ghAvailable := true
  infraPR := fun n =>
    if n = 91 then
      some ⟨91, "t", "OPEN", "preview/checkout-flow", "main", "u", "a", "c", none, none⟩
    else if n = 92 then
      some ⟨92, "t", "OPEN", "preview/billing-v2", "main", "u", "a", "c", none, none⟩
    else none
  dem2PR := fun n =>
    if n = 421 then
      some ⟨421, "t", "OPEN", "feature/x", "main", "u", "a", "c", none, none⟩
    else none
  dem2PRByBranch := fun b => if b = "feature/x" then some 421 else none
  previewBranches := []
  previewTagsSorted := ["preview-checkout-flow"]
  tagInDem2 := fun t => t = "preview-checkout-flow"
  isAncestorDem2 := fun t b => t = "preview-checkout-flow" && b = "origin/feature/x"
  refVerifyDem2 := fun r => r = "origin/feature/x"
  nsAnnotationMap := fun _ => none
  argoAppList := none

/-- A world where no external tool yields anything and the GitHub CLI is
unavailable. -/
def wBare : World where
  ghAvailable := false
  infraPR := fun _ => none
  dem2PR := fun _ => none
  dem2PRByBranch := fun _ => none
  previewBranches := []
  previewTagsSorted := []
  tagInDem2 := fun _ => false
  isAncestorDem2 := fun _ _ => false
  refVerifyDem2 := fun _ => false
  nsAnnotationMap := fun _ => none
  argoAppList := none

/-! ### Claim theorems -/

/-- C3: for every world (hence for every behaviour of the namespace
annotation, ArgoCD application list, and PR lookups) and every string
identifier, GkeNamespace resolution returns some `ResolvedPreview` and never
raises; and when the identifier is not of the `tusdi-preview-<N>` shape and
neither annotation scan nor application-list scan yields a (truthy) app name,
the `previewId` is the namespace name itself. -/
theorem c3_gke_namespace_total (w : World) (identifier : String) :
    (∃ r : PreviewEnvironment,
        PreviewEnvironment.resolve w .GKE_NAMESPACE identifier = .ok r) ∧
    (reMatchDigits "tusdi-preview-" identifier = none →
      pyStrTruthy (get_argocd_app_from_namespace w identifier) = false →
      pyStrTruthy (get_argocd_app_for_namespace w identifier) = false →
      PreviewEnvironment.resolve w .GKE_NAMESPACE identifier =
        .ok ⟨identifier, .GKE_NAMESPACE, identifier⟩) := by
  constructor
  · simpa [PreviewEnvironment.resolve] using gke_always_ok w identifier
  · intro h1 h2 h3
    simp only [PreviewEnvironment.resolve]
    unfold resolve_gke_namespace
    rw [h1]
    dsimp only
    rw [h2]
    simp only [Bool.false_eq_true, if_false]
    cases hf : get_argocd_app_for_namespace w identifier with
    | none => simp
    | some s =>
      obtain ⟨sd⟩ := s
      rw [hf] at h3
      have hs : sd = [] := by
        simpa [pyStrTruthy, String.toList] using h3
      subst hs
      simp [String.toList]

/-- Witness for C3 at the spec's scenario `"some-random-ns"` in a world with
no annotations and no ArgoCD applications. -/
theorem c3_gke_namespace_total_witness :
    PreviewEnvironment.resolve wBare .GKE_NAMESPACE "some-random-ns" =
      .ok ⟨"some-random-ns", .GKE_NAMESPACE, "some-random-ns"⟩ :=
  (c3_gke_namespace_total wBare "some-random-ns").2 (by decide) (by decide)
    (by decide)

/-- C6: identifiers matching `^preview-(.+)$` resolve as GitTag to the
captured group in every world (no external lookup), identifiers matching
`^preview/(.+)$` resolve as InfraBranch likewise, and identifiers not
matching their kind's pattern fail with `ResolutionError`. -/
theorem c6_pure_pattern_kinds (w : World) (identifier : String) :
    (∀ g, reMatchDotPlus "preview-" identifier = some g →
      ∀ w' : World, PreviewEnvironment.resolve w' .GIT_TAG identifier =
        .ok ⟨g, .GIT_TAG, identifier⟩) ∧
    (∀ g, reMatchDotPlus "preview/" identifier = some g →
      ∀ w' : World, PreviewEnvironment.resolve w' .INFRA_BRANCH identifier =
        .ok ⟨g, .INFRA_BRANCH, identifier⟩) ∧
    (reMatchDotPlus "preview-" identifier = none →
      isResolutionError (PreviewEnvironment.resolve w .GIT_TAG identifier) =
        true) ∧
    (reMatchDotPlus "preview/" identifier = none →
      isResolutionError
        (PreviewEnvironment.resolve w .INFRA_BRANCH identifier) = true) := by
  refine ⟨?_, ?_, ?_, ?_⟩
  · intro g hg w'
    simp [PreviewEnvironment.resolve, resolve_git_tag, hg]
  · intro g hg w'
    simp [PreviewEnvironment.resolve, resolve_infra_branch, hg]
  · intro hn
    simp [PreviewEnvironment.resolve, resolve_git_tag, hn, isResolutionError]
  · intro hn
    simp [PreviewEnvironment.resolve, resolve_infra_branch, hn,
      isResolutionError]

/-- Witness for C6: the spec's GitTag scenario, plus the two failing
examples `"feature-x"` as GitTag and `"preview-x"` as InfraBranch. -/
theorem c6_pure_pattern_kinds_witness :
    PreviewEnvironment.resolve wBare .GIT_TAG
        "preview-docproc-extraction-pipeline" =
      .ok ⟨"docproc-extraction-pipeline", .GIT_TAG,
        "preview-docproc-extraction-pipeline"⟩ ∧
    isResolutionError (PreviewEnvironment.resolve wBare .GIT_TAG "feature-x") =
      true ∧
    isResolutionError
        (PreviewEnvironment.resolve wBare .INFRA_BRANCH "preview-x") = true :=
  ⟨(c6_pure_pattern_kinds wBare "preview-docproc-extraction-pipeline").1
      "docproc-extraction-pipeline" (by decide) wBare,
    (c6_pure_pattern_kinds wBare "feature-x").2.2.1 (by decide),
    (c6_pure_pattern_kinds wBare "preview-x").2.2.2 (by decide)⟩

/-- C10: every successful resolution, for every kind and every identifier,
carries the requested kind unchanged in `id_type` and the input identifier
verbatim in `original_identifier`. -/
theorem c10_kind_and_identifier_preserved (w : World) (k : IdentifierType)
    (identifier : String) (r : PreviewEnvironment)
    (h : PreviewEnvironment.resolve w k identifier = .ok r) :
    r.id_type = k ∧ r.original_identifier = identifier := by
  cases k <;>
    simp only [PreviewEnvironment.resolve, resolve_git_tag, resolve_argocd_app,
      resolve_gke_namespace, resolve_infra_branch, resolve_pr,
      resolve_git_branch] at h <;>
    (repeat' split at h) <;>
    first
      | exact Except.noConfusion h
      | (obtain rfl := Except.ok.inj h; exact ⟨rfl, rfl⟩)

/-- Witness for C10 at a successful GitTag resolution. -/
theorem c10_kind_and_identifier_preserved_witness :
    (PreviewEnvironment.mk "x" .GIT_TAG "preview-x").id_type = .GIT_TAG ∧
    (PreviewEnvironment.mk "x" .GIT_TAG "preview-x").original_identifier =
      "preview-x" :=
  c10_kind_and_identifier_preserved wBare .GIT_TAG "preview-x"
    ⟨"x", .GIT_TAG, "preview-x"⟩ (by decide)

/-- C4: ArgoApp resolution of `preview-pr-<N>` fetches infra PR #N and
requires its head branch to match `preview/<id>`, yielding that `<id>`; it
fails with `ResolutionError` when the pattern does not match, when the PR
lookup returns nothing, or when the head branch is not a preview branch, and
with the missing-dependency error when the GitHub CLI is unavailable. -/
theorem c4_argocd_app_resolution (w : World) (identifier : String) :
    (∀ grp pr p, reMatchDigits "preview-pr-" identifier = some grp →
      w.ghAvailable = true →
      w.infraPR (digitsVal grp.toList) = some pr →
      reMatchDotPlus "preview/" pr.head_ref = some p →
      PreviewEnvironment.resolve w .ARGOCD_APP identifier =
        .ok ⟨p, .ARGOCD_APP, identifier⟩) ∧
    (reMatchDigits "preview-pr-" identifier = none →
      isResolutionError
        (PreviewEnvironment.resolve w .ARGOCD_APP identifier) = true) ∧
    (∀ grp, reMatchDigits "preview-pr-" identifier = some grp →
      w.ghAvailable = true →
      w.infraPR (digitsVal grp.toList) = none →
      isResolutionError
        (PreviewEnvironment.resolve w .ARGOCD_APP identifier) = true) ∧
    (∀ grp pr, reMatchDigits "preview-pr-" identifier = some grp →
      w.ghAvailable = true →
      w.infraPR (digitsVal grp.toList) = some pr →
      reMatchDotPlus "preview/" pr.head_ref = none →
      isResolutionError
        (PreviewEnvironment.resolve w .ARGOCD_APP identifier) = true) ∧
    (∀ grp, reMatchDigits "preview-pr-" identifier = some grp →
      w.ghAvailable = false →
      isCommandNotFound
        (PreviewEnvironment.resolve w .ARGOCD_APP identifier) = true) := by
  refine ⟨?_, ?_, ?_, ?_, ?_⟩
  · intro grp pr p hm hg hpr hp
    have hpr2 : w.infraPR (digitsVal grp.data) = some pr := hpr
    simp [PreviewEnvironment.resolve, resolve_argocd_app, hm, hg, hpr2, hp]
  · intro hm
    simp [PreviewEnvironment.resolve, resolve_argocd_app, hm,
      isResolutionError]
  · intro grp hm hg hpr
    have hpr2 : w.infraPR (digitsVal grp.data) = none := hpr
    simp [PreviewEnvironment.resolve, resolve_argocd_app, hm, hg, hpr2,
      isResolutionError]
  · intro grp pr hm hg hpr hp
    have hpr2 : w.infraPR (digitsVal grp.data) = some pr := hpr
    simp [PreviewEnvironment.resolve, resolve_argocd_app, hm, hg, hpr2, hp,
      isResolutionError]
  · intro grp hm hg
    simp [PreviewEnvironment.resolve, resolve_argocd_app, hm, hg,
      isCommandNotFound]

/-- Witness for C4 at the spec's scenario: `"preview-pr-91"` with infra PR
#91's head branch `preview/checkout-flow` resolves to `checkout-flow`; a
non-matching name fails; in the bare world (no `gh`) the dependency error is
raised. -/
theorem c4_argocd_app_resolution_witness :
    PreviewEnvironment.resolve wStd .ARGOCD_APP "preview-pr-91" =
      .ok ⟨"checkout-flow", .ARGOCD_APP, "preview-pr-91"⟩ ∧
    isResolutionError
        (PreviewEnvironment.resolve wStd .ARGOCD_APP "not-a-preview-app") =
      true ∧
    isCommandNotFound
        (PreviewEnvironment.resolve wBare .ARGOCD_APP "preview-pr-91") =
      true :=
  ⟨(c4_argocd_app_resolution wStd "preview-pr-91").1 "91"
      ⟨91, "t", "OPEN", "preview/checkout-flow", "main", "u", "a", "c", none,
        none⟩
      "checkout-flow" (by decide) (by decide) (by decide) (by decide),
    (c4_argocd_app_resolution wStd "not-a-preview-app").2.1 (by decide),
    (c4_argocd_app_resolution wBare "preview-pr-91").2.2.2.2 "91" (by decide)
      (by decide)⟩

/-- C5: a GkeNamespace identifier of shape `tusdi-preview-<N>` resolves via
infra PR #N's head branch exactly as in ArgoApp resolution; when the CLI is
unavailable, the PR lookup fails, or the head branch is not a preview branch,
the `previewId` falls back to the decimal string of `N`; and the result
depends only on the CLI availability and the infra PR oracle — the namespace
annotations and the ArgoCD application list are never consulted. -/
theorem c5_tusdi_namespace_resolution (w : World) (identifier grp : String)
    (hm : reMatchDigits "tusdi-preview-" identifier = some grp) :
    (∀ pr p, w.ghAvailable = true →
      w.infraPR (digitsVal grp.toList) = some pr →
      reMatchDotPlus "preview/" pr.head_ref = some p →
      PreviewEnvironment.resolve w .GKE_NAMESPACE identifier =
        .ok ⟨p, .GKE_NAMESPACE, identifier⟩) ∧
    (w.ghAvailable = false →
      PreviewEnvironment.resolve w .GKE_NAMESPACE identifier =
        .ok ⟨toString (digitsVal grp.toList), .GKE_NAMESPACE, identifier⟩) ∧
    (w.ghAvailable = true → w.infraPR (digitsVal grp.toList) = none →
      PreviewEnvironment.resolve w .GKE_NAMESPACE identifier =
        .ok ⟨toString (digitsVal grp.toList), .GKE_NAMESPACE, identifier⟩) ∧
    (∀ pr, w.ghAvailable = true →
      w.infraPR (digitsVal grp.toList) = some pr →
      reMatchDotPlus "preview/" pr.head_ref = none →
      PreviewEnvironment.resolve w .GKE_NAMESPACE identifier =
        .ok ⟨toString (digitsVal grp.toList), .GKE_NAMESPACE, identifier⟩) ∧
    (∀ w' : World, w'.ghAvailable = w.ghAvailable → w'.infraPR = w.infraPR →
      PreviewEnvironment.resolve w' .GKE_NAMESPACE identifier =
        PreviewEnvironment.resolve w .GKE_NAMESPACE identifier) := by
  refine ⟨?_, ?_, ?_, ?_, ?_⟩
  · intro pr p hg hpr hp
    have hpr2 : w.infraPR (digitsVal grp.data) = some pr := hpr
    simp [PreviewEnvironment.resolve, resolve_gke_namespace, hm, hg, hpr2, hp]
  · intro hg
    simp [PreviewEnvironment.resolve, resolve_gke_namespace, hm, hg]
  · intro hg hpr
    have hpr2 : w.infraPR (digitsVal grp.data) = none := hpr
    simp [PreviewEnvironment.resolve, resolve_gke_namespace, hm, hg, hpr2]
  · intro pr hg hpr hp
    have hpr2 : w.infraPR (digitsVal grp.data) = some pr := hpr
    simp [PreviewEnvironment.resolve, resolve_gke_namespace, hm, hg, hpr2, hp]
  · intro w' hg hpr
    simp only [PreviewEnvironment.resolve]
    unfold resolve_gke_namespace
    rw [hm]
    dsimp only
    rw [hg, hpr]

/-- Witness for C5 at the spec's scenario: `"tusdi-preview-92"` with infra PR
#92's head branch `preview/billing-v2` resolves to `billing-v2`; in the bare
world (no `gh`) it falls back to `"92"`. -/
theorem c5_tusdi_namespace_resolution_witness :
    PreviewEnvironment.resolve wStd .GKE_NAMESPACE "tusdi-preview-92" =
      .ok ⟨"billing-v2", .GKE_NAMESPACE, "tusdi-preview-92"⟩ ∧
    PreviewEnvironment.resolve wBare .GKE_NAMESPACE "tusdi-preview-92" =
      .ok ⟨"92", .GKE_NAMESPACE, "tusdi-preview-92"⟩ :=
  ⟨(c5_tusdi_namespace_resolution wStd "tusdi-preview-92" "92" (by decide)).1
      ⟨92, "t", "OPEN", "preview/billing-v2", "main", "u", "a", "c", none,
        none⟩
      "billing-v2" (by decide) (by decide) (by decide),
    (c5_tusdi_namespace_resolution wBare "tusdi-preview-92" "92"
      (by decide)).2.1 (by decide)⟩

/-- C9: when the GitHub CLI is unavailable, ArgoApp resolution (past its
pattern pre-check), PullRequest resolution (past its numeric pre-check), and
GitBranch resolution all fail with the missing-dependency error — a fixed
error value for every world with the CLI absent, hence before any PR lookup
is consulted — while GkeNamespace resolution still returns a result. -/
theorem c9_gh_dependency_eager (w : World) (identifier : String)
    (hg : w.ghAvailable = false) :
    (∀ grp, reMatchDigits "preview-pr-" identifier = some grp →
      PreviewEnvironment.resolve w .ARGOCD_APP identifier =
        .error (.commandNotFound "gh CLI required for ArgoCD app resolution")) ∧
    (pyIsdigit identifier = true →
      PreviewEnvironment.resolve w .PR identifier =
        .error (.commandNotFound "gh CLI required for PR resolution")) ∧
    (PreviewEnvironment.resolve w .GIT_BRANCH identifier =
      .error (.commandNotFound "gh CLI required for git branch resolution")) ∧
    (∃ r : PreviewEnvironment,
      PreviewEnvironment.resolve w .GKE_NAMESPACE identifier = .ok r) := by
  refine ⟨?_, ?_, ?_, ?_⟩
  · intro grp hmatch
    simp [PreviewEnvironment.resolve, resolve_argocd_app, hmatch, hg]
  · intro hd
    simp [PreviewEnvironment.resolve, resolve_pr, hd, hg]
  · simp [PreviewEnvironment.resolve, resolve_git_branch, hg]
  · simpa [PreviewEnvironment.resolve] using gke_always_ok w identifier

/-- Witness for C9 in the bare world (no GitHub CLI). -/
theorem c9_gh_dependency_eager_witness :
    PreviewEnvironment.resolve wBare .ARGOCD_APP "preview-pr-91" =
      .error (.commandNotFound "gh CLI required for ArgoCD app resolution") ∧
    PreviewEnvironment.resolve wBare .PR "421" =
      .error (.commandNotFound "gh CLI required for PR resolution") ∧
    PreviewEnvironment.resolve wBare .GIT_BRANCH "feature/x" =
      .error (.commandNotFound "gh CLI required for git branch resolution") :=
  ⟨(c9_gh_dependency_eager wBare "preview-pr-91" (by decide)).1 "91"
      (by decide),
    (c9_gh_dependency_eager wBare "421" (by decide)).2.1 (by decide),
    (c9_gh_dependency_eager wBare "feature/x" (by decide)).2.2.1⟩

/-- C8 (code-bug evaluation): the numeric pre-check of `_resolve_pr` accepts
`"²"` — Python's `str.isdigit` is true for U+00B2 SUPERSCRIPT TWO — but
`int("²")` then raises a `ValueError` that no handler catches, so resolution
of kind PullRequest surfaces an exception that is neither `ResolutionError`
nor the missing-dependency error, against the documented failure
semantics. -/
theorem c8_pr_isdigit_int_gap :
    pyIsdigit "²" = true ∧
    pyIntOfIsdigit "²" = none ∧
    PreviewEnvironment.resolve wStd .PR "²" =
      .error (.valueError "invalid literal for int() with base 10: '²'") := by
  decide

/-- C1: for kind PullRequest with the GitHub CLI available and a numeric
identifier denoting `n`: (a) when infra PR #n exists with head branch
`preview/<id>`, every world agreeing on the CLI flag and the infra PR oracle
resolves to `<id>` — the application repo and the git oracles are never
consulted; (b) otherwise the application-repo PR's head branch drives the
two-tier ancestor search: a missing application PR raises `ResolutionError`,
a truthy search result `p` resolves to `p`, and a falsy search result raises
`ResolutionError`. -/
theorem c1_pull_request_two_phase (w : World) (identifier : String) (n : Nat)
    (hg : w.ghAvailable = true)
    (hn : pyIntOfIsdigit identifier = some n) :
    (∀ pr p, w.infraPR n = some pr →
      reMatchDotPlus "preview/" pr.head_ref = some p →
      ∀ w' : World, w'.ghAvailable = true → w'.infraPR = w.infraPR →
        PreviewEnvironment.resolve w' .PR identifier =
          .ok ⟨p, .PR, identifier⟩) ∧
    (infraPreviewHit w n = none →
      (w.dem2PR n = none →
        isResolutionError (PreviewEnvironment.resolve w .PR identifier) =
          true) ∧
      (∀ pr2, w.dem2PR n = some pr2 →
        (∀ p, prSearch w pr2.head_ref = some p → p.toList.isEmpty = false →
          PreviewEnvironment.resolve w .PR identifier =
            .ok ⟨p, .PR, identifier⟩) ∧
        (pyStrTruthy (prSearch w pr2.head_ref) = false →
          isResolutionError (PreviewEnvironment.resolve w .PR identifier) =
            true))) := by
  have hd := pyIsdigit_of_pyIntOfIsdigit hn
  constructor
  · intro pr p hpr hp w' hg' heq
    have hh : infraPreviewHit w' n = some p := by
      unfold infraPreviewHit
      rw [heq, hpr]
      exact hp
    simp [PreviewEnvironment.resolve, resolve_pr, hd, hg', hn, hh]
  · intro hhit
    constructor
    · intro hd2
      simp [PreviewEnvironment.resolve, resolve_pr, hd, hg, hn, hhit, hd2,
        isResolutionError]
    · intro pr2 hd2
      constructor
      · intro p hs hp
        have hp2 : p.data.isEmpty = false := hp
        simp [PreviewEnvironment.resolve, resolve_pr, hd, hg, hn, hhit, hd2,
          hs, hp2]
      · intro hs
        cases hps : prSearch w pr2.head_ref with
        | none =>
          simp [PreviewEnvironment.resolve, resolve_pr, hd, hg, hn, hhit,
            hd2, hps, isResolutionError]
        | some s =>
          have hse : s.data.isEmpty = true := by
            rw [hps] at hs
            simpa [pyStrTruthy, String.toList] using hs
          simp [PreviewEnvironment.resolve, resolve_pr, hd, hg, hn, hhit,
            hd2, hps, hse, isResolutionError]

/-- Witness for C1: PR #91 exists in the infra repo of `wStd` with head
branch `preview/checkout-flow`, so `"91"` resolves directly; PR #421 exists
only in the application repo with head branch `feature/x`, whose newest
ancestor preview tag is `preview-checkout-flow`, the spec's scenario. -/
theorem c1_pull_request_two_phase_witness :
    PreviewEnvironment.resolve wStd .PR "91" =
      .ok ⟨"checkout-flow", .PR, "91"⟩ ∧
    PreviewEnvironment.resolve wStd .PR "421" =
      .ok ⟨"checkout-flow", .PR, "421"⟩ :=
  ⟨(c1_pull_request_two_phase wStd "91" 91 (by decide) (by decide)).1
      ⟨91, "t", "OPEN", "preview/checkout-flow", "main", "u", "a", "c", none,
        none⟩
      "checkout-flow" (by decide) (by decide) wStd (by decide) rfl,
    ((((c1_pull_request_two_phase wStd "421" 421 (by decide) (by decide)).2
          (by decide)).2
        ⟨421, "t", "OPEN", "feature/x", "main", "u", "a", "c", none, none⟩
        (by decide)).1
      "checkout-flow" (by decide) (by decide))⟩

/-- `twoTier` only inspects its tag list through `find?`. -/
theorem twoTier_congr_find {firstTier : Option String} {tags : List String}
    {p q : String → Bool} (h : tags.find? p = tags.find? q) :
    twoTier firstTier tags p = twoTier firstTier tags q := by
  unfold twoTier
  rw [h]

/-- A world with one qualifying remote infra preview branch
(`checkout-flow`), used to exercise the branch-listing tier. -/
def wBranchy : World where
  ghAvailable := true
  infraPR := fun _ => none
  dem2PR := fun n =>
    if n = 421 then
      some ⟨421, "t", "OPEN", "feature/x", "main", "u", "a", "c", none, none⟩
    else none
  dem2PRByBranch := fun b => if b = "feature/x" then some 421 else none
  previewBranches := ["checkout-flow"]
  previewTagsSorted := ["preview-stale"]
  tagInDem2 := fun t => t = "preview-checkout-flow"
  isAncestorDem2 := fun _ b => b = "origin/feature/x"
  refVerifyDem2 := fun r => r = "origin/feature/x"
  nsAnnotationMap := fun _ => none
  argoAppList := none

/-- C2: in the two-tier searches of PullRequest and GitBranch resolution, the
tag-only fallback decides the result only when no remote infra preview branch
satisfies the branch tier's predicate; when the branch tier finds a (nonempty)
branch, that first qualifying branch in listing order is returned whatever the
tag list holds; and when the fallback decides on a tag list sorted
newest-first by creation date, the selected tag is the first qualifying one,
hence of maximal creation date among all qualifying tags. -/
theorem c2_fallback_tier_ordering (w : World) (B : String) :
    ((∀ b ∈ w.previewBranches, prTierBranchPred w B b = false) →
      prSearch w B =
        (w.previewTagsSorted.find? (prTagPred w B)).map replacePreview) ∧
    (∀ b, w.previewBranches.find? (prTierBranchPred w B) = some b →
      b.toList.isEmpty = false →
      ∀ tags, prSearch { w with previewTagsSorted := tags } B = some b) ∧
    (∀ (date : String → Nat) (t : String),
      w.previewTagsSorted.Pairwise (fun x y => date y ≤ date x) →
      (∀ b ∈ w.previewBranches, prTierBranchPred w B b = false) →
      w.previewTagsSorted.find? (prTagPred w B) = some t →
      prSearch w B = some (replacePreview t) ∧ prTagPred w B t = true ∧
        ∀ t' ∈ w.previewTagsSorted, prTagPred w B t' = true →
          date t' ≤ date t) ∧
    ((∀ b ∈ w.previewBranches, gbTierBranchPred w B b = false) →
      gbSearch w B =
        (w.previewTagsSorted.find? (gbTagPred w B)).map replacePreview) ∧
    (∀ b, w.previewBranches.find? (gbTierBranchPred w B) = some b →
      b.toList.isEmpty = false →
      ∀ tags, gbSearch { w with previewTagsSorted := tags } B = some b) ∧
    (∀ (date : String → Nat) (t : String),
      w.previewTagsSorted.Pairwise (fun x y => date y ≤ date x) →
      (∀ b ∈ w.previewBranches, gbTierBranchPred w B b = false) →
      w.previewTagsSorted.find? (gbTagPred w B) = some t →
      gbSearch w B = some (replacePreview t) ∧ gbTagPred w B t = true ∧
        ∀ t' ∈ w.previewTagsSorted, gbTagPred w B t' = true →
          date t' ≤ date t) := by
  refine ⟨?_, ?_, ?_, ?_, ?_, ?_⟩
  · intro h
    unfold prSearch
    exact twoTier_of_none (List.find?_eq_none.mpr fun x hx => by simp [h x hx])
  · intro b hb hbe tags
    have hconv : prSearch { w with previewTagsSorted := tags } B =
        twoTier (w.previewBranches.find? (prTierBranchPred w B)) tags
          (prTagPred w B) := rfl
    rw [hconv, hb]
    refine twoTier_of_truthy ?_
    simp [pyStrTruthy, String.toList] at hbe ⊢
    simpa using hbe
  · intro date t hsort hnone hfind
    obtain ⟨hpt, hmax⟩ :=
      find_on_sorted_is_max date (prTagPred w B) _ t hsort hfind
    refine ⟨?_, hpt, hmax⟩
    unfold prSearch
    rw [twoTier_of_none
      (List.find?_eq_none.mpr fun x hx => by simp [hnone x hx]), hfind]
    rfl
  · intro h
    unfold gbSearch
    exact twoTier_of_none (List.find?_eq_none.mpr fun x hx => by simp [h x hx])
  · intro b hb hbe tags
    have hconv : gbSearch { w with previewTagsSorted := tags } B =
        twoTier (w.previewBranches.find? (gbTierBranchPred w B)) tags
          (gbTagPred w B) := rfl
    rw [hconv, hb]
    refine twoTier_of_truthy ?_
    simp [pyStrTruthy, String.toList] at hbe ⊢
    simpa using hbe
  · intro date t hsort hnone hfind
    obtain ⟨hpt, hmax⟩ :=
      find_on_sorted_is_max date (gbTagPred w B) _ t hsort hfind
    refine ⟨?_, hpt, hmax⟩
    unfold gbSearch
    rw [twoTier_of_none
      (List.find?_eq_none.mpr fun x hx => by simp [hnone x hx]), hfind]
    rfl

/-- Witness for C2: in `wStd` (no infra preview branches) the fallback
decides both searches; in `wBranchy` the branch tier finds `checkout-flow`
and the result ignores the tag list entirely. -/
theorem c2_fallback_tier_ordering_witness :
    prSearch wStd "feature/x" =
      (wStd.previewTagsSorted.find? (prTagPred wStd "feature/x")).map
        replacePreview ∧
    gbSearch wStd "feature/x" =
      (wStd.previewTagsSorted.find? (gbTagPred wStd "feature/x")).map
        replacePreview ∧
    prSearch { wBranchy with previewTagsSorted := ["preview-stale"] }
        "feature/x" = some "checkout-flow" ∧
    prSearch wStd "feature/x" = some (replacePreview "preview-checkout-flow") :=
  ⟨(c2_fallback_tier_ordering wStd "feature/x").1 (by decide),
    (c2_fallback_tier_ordering wStd "feature/x").2.2.2.1 (by decide),
    (c2_fallback_tier_ordering wBranchy "feature/x").2.1 "checkout-flow"
      (by decide) (by decide) ["preview-stale"],
    ((c2_fallback_tier_ordering wStd "feature/x").2.2.1 (fun _ => 0)
        "preview-checkout-flow" (by decide) (by decide) (by decide)).1⟩

/-- C7: GitBranch resolution performs the same two-tier ancestor search as
PullRequest tier (b).  For a branch `B` whose PR lookup by branch name finds
a PR, and under the git consistency condition that a branch that fails
`rev-parse --verify` has no ancestors, resolving kind GitBranch on `B` yields
the same `previewId` — and fails with `ResolutionError` exactly when — the
PullRequest resolution whose application-repo PR has head branch `B` does,
in the same world. -/
theorem c7_git_branch_matches_pr_tier (w : World) (B identifier : String)
    (n : Nat) (k : Int) (pr2 : PRInfo)
    (hg : w.ghAvailable = true)
    (hk : w.dem2PRByBranch B = some k) (hk0 : ¬ k = 0)
    (hcons : w.refVerifyDem2 ("origin/" ++ B) = false →
      ∀ t, w.isAncestorDem2 t ("origin/" ++ B) = false)
    (hn : pyIntOfIsdigit identifier = some n)
    (hhit : infraPreviewHit w n = none)
    (hdem2 : w.dem2PR n = some pr2)
    (hhead : pr2.head_ref = B) :
    (∀ p, PreviewEnvironment.resolve w .GIT_BRANCH B =
        .ok ⟨p, .GIT_BRANCH, B⟩ ↔
      PreviewEnvironment.resolve w .PR identifier =
        .ok ⟨p, .PR, identifier⟩) ∧
    isResolutionError (PreviewEnvironment.resolve w .GIT_BRANCH B) =
      isResolutionError (PreviewEnvironment.resolve w .PR identifier) := by
  have hd := pyIsdigit_of_pyIntOfIsdigit hn
  have hpred1 : ∀ x ∈ w.previewBranches,
      gbTierBranchPred w B x = prTierBranchPred w B x := by
    intro x _
    unfold gbTierBranchPred prTierBranchPred
    cases hv : w.refVerifyDem2 ("origin/" ++ B) with
    | true => simp [hv]
    | false => simp [hv, hcons hv]
  have hpred2 : ∀ x ∈ w.previewTagsSorted,
      gbTagPred w B x = prTagPred w B x := by
    intro x _
    unfold gbTagPred prTagPred
    cases hv : w.refVerifyDem2 ("origin/" ++ B) with
    | true => simp [hv]
    | false => simp [hv, hcons hv]
  have hsearch : gbSearch w B = prSearch w B := by
    unfold gbSearch prSearch
    rw [find_respects_pred _ hpred1]
    exact twoTier_congr_find (find_respects_pred _ hpred2)
  cases hps : prSearch w B with
  | none =>
    have e1 : PreviewEnvironment.resolve w .GIT_BRANCH B =
        .error (.resolutionError
          ("Could not find preview environment for branch '" ++ B ++ "'")) := by
      simp [PreviewEnvironment.resolve, resolve_git_branch, hg, hk, hk0,
        hsearch, hps]
    have e2 : PreviewEnvironment.resolve w .PR identifier =
        .error (.resolutionError
          ("Could not find preview environment for PR #" ++ toString n)) := by
      simp [PreviewEnvironment.resolve, resolve_pr, hd, hg, hn, hhit, hdem2,
        hhead, hps]
    constructor
    · intro p
      rw [e1, e2]
      simp
    · rw [e1, e2]
      rfl
  | some s =>
    cases hse : s.data.isEmpty with
    | true =>
      have e1 : PreviewEnvironment.resolve w .GIT_BRANCH B =
          .error (.resolutionError
            ("Could not find preview environment for branch '" ++ B ++ "'")) := by
        simp [PreviewEnvironment.resolve, resolve_git_branch, hg, hk, hk0,
          hsearch, hps, hse]
      have e2 : PreviewEnvironment.resolve w .PR identifier =
          .error (.resolutionError
            ("Could not find preview environment for PR #" ++ toString n)) := by
        simp [PreviewEnvironment.resolve, resolve_pr, hd, hg, hn, hhit,
          hdem2, hhead, hps, hse]
      constructor
      · intro p
        rw [e1, e2]
        simp
      · rw [e1, e2]
        rfl
    | false =>
      have e1 : PreviewEnvironment.resolve w .GIT_BRANCH B =
          .ok ⟨s, .GIT_BRANCH, B⟩ := by
        simp [PreviewEnvironment.resolve, resolve_git_branch, hg, hk, hk0,
          hsearch, hps, hse]
      have e2 : PreviewEnvironment.resolve w .PR identifier =
          .ok ⟨s, .PR, identifier⟩ := by
        simp [PreviewEnvironment.resolve, resolve_pr, hd, hg, hn, hhit,
          hdem2, hhead, hps, hse]
      constructor
      · intro p
        rw [e1, e2]
        simp
      · rw [e1, e2]
        rfl

/-- Witness for C7 in `wStd`: branch `feature/x` has PR #421; both routes end
in the tag fallback selecting `preview-checkout-flow`. -/
theorem c7_git_branch_matches_pr_tier_witness :
    (PreviewEnvironment.resolve wStd .GIT_BRANCH "feature/x" =
        .ok ⟨"checkout-flow", .GIT_BRANCH, "feature/x"⟩ ↔
      PreviewEnvironment.resolve wStd .PR "421" =
        .ok ⟨"checkout-flow", .PR, "421"⟩) ∧
    isResolutionError (PreviewEnvironment.resolve wStd .GIT_BRANCH "feature/x") =
      isResolutionError (PreviewEnvironment.resolve wStd .PR "421") := by
  have h := c7_git_branch_matches_pr_tier wStd "feature/x" "421" 421 421
    ⟨421, "t", "OPEN", "feature/x", "main", "u", "a", "c", none, none⟩
    (by decide) (by decide) (by decide)
    (fun hv => absurd hv (by decide))
    (by decide) (by decide) (by decide) rfl
  exact ⟨h.1 "checkout-flow", h.2⟩
